import Mathlib

/-!
Verification of the `ImageUploadButton` React component
(`components/Chat/ImageUploadButton.tsx`) of the repository.

The component exposes two behaviours:
* `triggerFileUpload` — forwards a click to the hidden file input unless
  the `disabled` prop is set;
* `handleFileChange` — validates the chosen file's MIME category and byte
  size, starts an asynchronous `FileReader.readAsDataURL` read, wires its
  `onload` handler to the caller-supplied `onImageSelect` callback, and
  resets the input element's `value`.

The embedding below models one change event end to end: the observable
outcome of a call is the list of alert messages shown, the list of
`onImageSelect` invocations (in order), the final `value` of the input
element, and whether a read was started.  The host `FileReader` is an
external collaborator, so `handleFileChange` is parametrised by the
function `read` that delivers `loadEvent.target?.result` (`none` models a
null/absent result).
-/

namespace ImageUpload

/-- A user-chosen file handle: display name, declared MIME type string
(`"type/subtype"` form), byte size, and raw content bytes. -/
structure File where
  name : String
  type : String
  size : Nat
  content : List Nat
deriving DecidableEq

/-- JavaScript `String.prototype.split` with a one-character separator,
on the character list of the string: `"" ↦ [""]`, separators delimit
(possibly empty) groups. -/
def splitChar (sep : Char) : List Char → List (List Char)
  | [] => [[]]
  | c :: cs =>
    if c = sep then [] :: splitChar sep cs
    else
      match splitChar sep cs with
      | [] => [[c]]
      | g :: gs => (c :: g) :: gs

/-- The empty string (named, for use as a default argument). -/
def emptyStr : String := ""

/-- `const [fileType] = file.type.split('/')` — the MIME type's primary
category: the segment of `file.type` before the first `'/'`. -/
def fileTypeOf (f : File) : String :=
  ((splitChar '/' f.type.data).map String.mk).headD emptyStr

/-- Alert text shown for a non-image file (source line 30). -/
def typeAlertMsg : String := "只支持图片文件"

/-- Alert text shown for an oversized file (source line 36). -/
def sizeAlertMsg : String := "文件大小不能超过2MB"

/-- Observable outcome of one change event: alerts shown (in order),
`onImageSelect` invocations (file handle and base64 string, in order),
final `value` of the input element, and whether a read was started. -/
structure ChangeResult where
  alerts : List String
  callbacks : List (File × String)
  value : String
  readStarted : Bool
deriving DecidableEq

/-- `handleFileChange`, with the change event reduced to its optional
first file (`e.target.files?.[0]`), the input element's current `value`,
and the host reader `read` delivering `loadEvent.target?.result` once the
asynchronous read completes.  Mirrors the source line by line: absent
file → no-op; non-image MIME category → alert, early return; size above
`2 * 1024 * 1024` → alert, early return; otherwise the read is started,
`onImageSelect` fires on load iff the delivered result is truthy
(a non-empty string), and the input's `value` is reset to `''`.
The `onloadCalls` function is the `reader.onload` handler: given the
delivered `loadEvent.target?.result` (`none` models null/absent), it
performs one `onImageSelect` invocation, with the captured file handle,
iff the result is a truthy (non-empty) string. -/
def onloadCalls (file : File) (result? : Option String) : List (File × String) :=
  match result? with
  | some fullBase64String =>
    if fullBase64String != "" then [(file, fullBase64String)] else []
  | none => []

def handleFileChange (file? : Option File) (value : String)
    (read : File → Option String) : ChangeResult :=
  match file? with
  | none => ⟨[], [], value, false⟩
  | some file =>
    if fileTypeOf file != "image" then
      ⟨[typeAlertMsg], [], value, false⟩
    else if file.size > 2 * 1024 * 1024 then
      ⟨[sizeAlertMsg], [], value, false⟩
    else
      ⟨[], onloadCalls file (read file), "", true⟩

/-- `triggerFileUpload`: returns whether the hidden input's `click()` was
invoked (i.e. whether the file-selection surface opens).  `refPresent`
models `fileInputRef.current` being non-null. -/
def triggerFileUpload (disabled : Bool) (refPresent : Bool) : Bool :=
  if disabled then false else refPresent

/-- Outcome of one activation of the trigger followed by (at most) one
file choice through the opened surface. -/
structure FlowResult where
  opened : Bool
  result : ChangeResult
deriving DecidableEq

/-- End-to-end flow of one user action: the trigger is activated; the
file-selection surface opens only if `triggerFileUpload` forwards the
click to the hidden input; a change event (file choice) can arise only
through the opened surface, in which case `handleFileChange` runs. -/
def selectionFlow (disabled : Bool) (refPresent : Bool)
    (choice : Option File) (value : String)
    (read : File → Option String) : FlowResult :=
  if triggerFileUpload disabled refPresent then
    ⟨true, handleFileChange choice value read⟩
  else
    ⟨false, ⟨[], [], value, false⟩⟩

/-- The standard base64 alphabet. -/
def base64Chars : List Char :=
  "ABCDEFGHIJKLMNOPQRSTUVWXYZabcdefghijklmnopqrstuvwxyz0123456789+/".data

/-- The base64 digit for a 6-bit value. -/
def b64c (n : Nat) : Char := base64Chars.getD n '='

/-- Base64 encoding of a byte list, chunked in groups of three with
`'='` padding. -/
def base64Encode : List Nat → List Char
  | a :: b :: c :: rest =>
    let n := a % 256 * 65536 + b % 256 * 256 + c % 256
    b64c (n / 262144) :: b64c (n / 4096 % 64) :: b64c (n / 64 % 64) ::
      b64c (n % 64) :: base64Encode rest
  | [a, b] =>
    let n := a % 256 * 65536 + b % 256 * 256
    [b64c (n / 262144), b64c (n / 4096 % 64), b64c (n / 64 % 64), '=']
  | [a] =>
    let n := a % 256 * 65536
    [b64c (n / 262144), b64c (n / 4096 % 64), '=', '=']
  | [] => []

/-- Modelled from the spec: the host environment's `readAsDataURL`
file-read primitive is not repository code (it is a browser built-in the
component consumes).  The spec's glossary defines its result as a data
URL `data:<mime-type>;base64,<payload>` with the payload the base64
encoding of the file content. -/
def readAsDataURL (f : File) : String :=
  "data:" ++ f.type ++ ";base64," ++ String.mk (base64Encode f.content)

/-! ### Helper lemmas -/

/-- A non-image file takes the first early return: one type alert, no
callback, value untouched, no read. -/
theorem handleFileChange_nonimage (file : File) (value : String)
    (read : File → Option String) (h : fileTypeOf file ≠ "image") :
    handleFileChange (some file) value read = ⟨[typeAlertMsg], [], value, false⟩ := by
  simp [handleFileChange, h]

/-- An oversized image file takes the second early return: one size
alert, no callback, value untouched, no read. -/
theorem handleFileChange_tooLarge (file : File) (value : String)
    (read : File → Option String) (himg : fileTypeOf file = "image")
    (hsize : 2097152 < file.size) :
    handleFileChange (some file) value read = ⟨[sizeAlertMsg], [], value, false⟩ := by
  have h2 : file.size > 2 * 1024 * 1024 := by omega
  simp [handleFileChange, himg, h2]

/-- A file passing both checks starts the read: no alert, callbacks as
delivered by the onload handler, value reset. -/
theorem handleFileChange_ok (file : File) (value : String)
    (read : File → Option String) (himg : fileTypeOf file = "image")
    (hsize : file.size ≤ 2097152) :
    handleFileChange (some file) value read
      = ⟨[], onloadCalls file (read file), "", true⟩ := by
  have h2 : ¬ (file.size > 2 * 1024 * 1024) := by omega
  simp [handleFileChange, himg, h2]

/-- The modelled data URL is never the empty string. -/
theorem readAsDataURL_ne_empty (f : File) : readAsDataURL f ≠ "" := by
  intro h
  have hd := congrArg String.data h
  rw [readAsDataURL] at hd
  simp [String.data_append] at hd

/-! ### Concrete inputs used by the witnesses -/

def prevVal : String := "v0"

def reader0 : File → Option String := fun _ => none

def readerOk : File → Option String := fun f => some (readAsDataURL f)

def pngFile : File := ⟨"pic.png", "image/png", 512000, [137, 80, 78, 71]⟩

def txtFile : File := ⟨"note.txt", "text/plain", 10240, [104, 105]⟩

def bigJpg : File := ⟨"big.jpg", "image/jpeg", 3145728, []⟩

def bigZip : File := ⟨"big.zip", "application/zip", 5000000, []⟩

def edgeA : File := ⟨"edge.png", "image/png", 2097152, []⟩

def edgeB : File := ⟨"over.png", "image/png", 2097153, []⟩

/-! ### Claim theorems -/

/-- C1: for every file whose declared MIME primary category is "image"
and whose byte size is at most 2097152, handleFileChange initiates the
read and, once the read completes, the onImageSelect callback is invoked
exactly once, carrying the identical file handle and a string that
begins with "data:" and contains ";base64,". -/
theorem success_read_invokes_callback_once (file : File) (value : String)
    (himg : fileTypeOf file = "image") (hsize : file.size ≤ 2097152) :
    (handleFileChange (some file) value readerOk).readStarted = true ∧
    (handleFileChange (some file) value readerOk).callbacks
      = [(file, readAsDataURL file)] ∧
    (∃ rest, readAsDataURL file = "data:" ++ rest) ∧
    (∃ a b, readAsDataURL file = a ++ ";base64," ++ b) := by
  have hok := handleFileChange_ok file value readerOk himg hsize
  refine ⟨by rw [hok], ?_, ?_, ?_⟩
  · rw [hok]
    simp [readerOk, onloadCalls, readAsDataURL_ne_empty file]
  · exact ⟨file.type ++ (";base64," ++ String.mk (base64Encode file.content)), by
      rw [readAsDataURL, String.append_assoc, String.append_assoc]⟩
  · exact ⟨"data:" ++ file.type, String.mk (base64Encode file.content), by
      rw [readAsDataURL]⟩

theorem success_read_invokes_callback_once_check :
    fileTypeOf pngFile = "image" ∧ pngFile.size ≤ 2097152 ∧
    ((handleFileChange (some pngFile) prevVal readerOk).readStarted = true ∧
     (handleFileChange (some pngFile) prevVal readerOk).callbacks
       = [(pngFile, readAsDataURL pngFile)] ∧
     (∃ rest, readAsDataURL pngFile = "data:" ++ rest) ∧
     (∃ a b, readAsDataURL pngFile = a ++ ";base64," ++ b)) :=
  ⟨by decide, by decide,
   success_read_invokes_callback_once pngFile prevVal (by decide) (by decide)⟩

/-- C2: for every file whose declared MIME primary category is not
"image", handleFileChange does not invoke the completion callback,
presents exactly one validation alert (the text 只支持图片文件), and
aborts with no partial state retained (value untouched, no read). -/
theorem nonimage_rejected_one_alert_no_callback (file : File) (value : String)
    (read : File → Option String) (h : fileTypeOf file ≠ "image") :
    (handleFileChange (some file) value read).callbacks = [] ∧
    (handleFileChange (some file) value read).alerts = [typeAlertMsg] ∧
    (handleFileChange (some file) value read).value = value ∧
    (handleFileChange (some file) value read).readStarted = false := by
  rw [handleFileChange_nonimage file value read h]
  exact ⟨rfl, rfl, rfl, rfl⟩

theorem nonimage_rejected_one_alert_no_callback_check :
    fileTypeOf txtFile ≠ "image" ∧
    ((handleFileChange (some txtFile) prevVal reader0).callbacks = [] ∧
     (handleFileChange (some txtFile) prevVal reader0).alerts = [typeAlertMsg] ∧
     (handleFileChange (some txtFile) prevVal reader0).value = prevVal ∧
     (handleFileChange (some txtFile) prevVal reader0).readStarted = false) :=
  ⟨by decide,
   nonimage_rejected_one_alert_no_callback txtFile prevVal reader0 (by decide)⟩

/-- C3: for every file whose byte size exceeds 2097152 the completion
callback is never invoked, and when its MIME category is "image" the
alert presented is 文件大小不能超过2MB and the selection is aborted. -/
theorem oversize_never_invokes_callback (file : File) (value : String)
    (read : File → Option String) (hsize : 2097152 < file.size) :
    (handleFileChange (some file) value read).callbacks = [] ∧
    (fileTypeOf file = "image" →
      (handleFileChange (some file) value read).alerts = [sizeAlertMsg] ∧
      (handleFileChange (some file) value read).readStarted = false) := by
  by_cases himg : fileTypeOf file = "image"
  · rw [handleFileChange_tooLarge file value read himg hsize]
    exact ⟨rfl, fun _ => ⟨rfl, rfl⟩⟩
  · rw [handleFileChange_nonimage file value read himg]
    exact ⟨rfl, fun h => absurd h himg⟩

theorem oversize_never_invokes_callback_check :
    2097152 < bigJpg.size ∧
    ((handleFileChange (some bigJpg) prevVal reader0).callbacks = [] ∧
     (fileTypeOf bigJpg = "image" →
       (handleFileChange (some bigJpg) prevVal reader0).alerts = [sizeAlertMsg] ∧
       (handleFileChange (some bigJpg) prevVal reader0).readStarted = false)) :=
  ⟨by decide, oversize_never_invokes_callback bigJpg prevVal reader0 (by decide)⟩

/-- C4: the MIME-category check precedes the size check: for every file
that is both non-image and larger than 2097152 bytes, the alert shown is
只支持图片文件 (the size alert is never reached). -/
theorem type_check_precedes_size_check (file : File) (value : String)
    (read : File → Option String) (htype : fileTypeOf file ≠ "image")
    (_hsize : 2097152 < file.size) :
    (handleFileChange (some file) value read).alerts = [typeAlertMsg] := by
  rw [handleFileChange_nonimage file value read htype]

theorem type_check_precedes_size_check_check :
    (fileTypeOf bigZip ≠ "image" ∧ 2097152 < bigZip.size) ∧
    (handleFileChange (some bigZip) prevVal reader0).alerts = [typeAlertMsg] :=
  ⟨⟨by decide, by decide⟩,
   type_check_precedes_size_check bigZip prevVal reader0 (by decide) (by decide)⟩

/-- C5: with the disabled flag set, activating the trigger never opens
the file-selection surface and no completion callback can ever fire,
whatever file choice is simulated afterwards; with disabled unset (and
the input mounted) activation opens the file-selection surface. -/
theorem disabled_trigger_is_noop (refPresent : Bool) (choice : Option File)
    (value : String) (read : File → Option String) :
    (selectionFlow true refPresent choice value read).opened = false ∧
    (selectionFlow true refPresent choice value read).result.callbacks = [] ∧
    (selectionFlow false true choice value read).opened = true := by
  cases refPresent <;> exact ⟨rfl, rfl, rfl⟩

/-- C6: if the read completes without a usable (non-empty) result, no
completion callback fires and no alert is surfaced: a silent no-op. -/
theorem empty_read_result_silent_noop (file : File) (value : String)
    (read : File → Option String) (himg : fileTypeOf file = "image")
    (hsize : file.size ≤ 2097152)
    (hempty : read file = none ∨ read file = some "") :
    (handleFileChange (some file) value read).callbacks = [] ∧
    (handleFileChange (some file) value read).alerts = [] := by
  rw [handleFileChange_ok file value read himg hsize]
  rcases hempty with h | h <;> simp [onloadCalls, h]

theorem empty_read_result_silent_noop_check :
    (fileTypeOf pngFile = "image" ∧ pngFile.size ≤ 2097152 ∧ reader0 pngFile = none) ∧
    ((handleFileChange (some pngFile) prevVal reader0).callbacks = [] ∧
     (handleFileChange (some pngFile) prevVal reader0).alerts = []) :=
  ⟨⟨by decide, by decide, rfl⟩,
   empty_read_result_silent_noop pngFile prevVal reader0 (by decide) (by decide)
     (Or.inl rfl)⟩

/-- C7 counterexample: the claim says the input value is reset for every
invocation of the change handler, but an invocation with a non-image
file returns early before the reset: the stored value stays prevVal
(non-empty). -/
theorem value_reset_every_invocation_cex :
    ¬ ((handleFileChange (some txtFile) prevVal reader0).value = "") := by decide

/-- C7 (amended): the input element's stored value is cleared after a
read is initiated — for every invocation of the change handler in which
the read starts, the value is reset to the empty string. -/
theorem value_cleared_when_read_started (file? : Option File) (value : String)
    (read : File → Option String)
    (h : (handleFileChange file? value read).readStarted = true) :
    (handleFileChange file? value read).value = "" := by
  match file? with
  | none => simp [handleFileChange] at h
  | some file =>
    by_cases himg : fileTypeOf file = "image"
    · by_cases hs : file.size ≤ 2097152
      · rw [handleFileChange_ok file value read himg hs]
      · rw [handleFileChange_tooLarge file value read himg (by omega)] at h
        simp at h
    · rw [handleFileChange_nonimage file value read himg] at h
      simp at h

theorem value_cleared_when_read_started_check :
    (handleFileChange (some pngFile) prevVal readerOk).readStarted = true ∧
    (handleFileChange (some pngFile) prevVal readerOk).value = "" :=
  ⟨by decide,
   value_cleared_when_read_started (some pngFile) prevVal readerOk (by decide)⟩

/-- C8: an invocation with an absent file handle is a no-op: no alert,
no read, no callback, value untouched. -/
theorem absent_file_is_noop (value : String) (read : File → Option String) :
    handleFileChange none value read = ⟨[], [], value, false⟩ := rfl

/-- C9: the size limit is inclusive: an image file of exactly 2097152
bytes passes validation and proceeds to the read, while one of 2097153
bytes is rejected with the size alert. -/
theorem size_limit_is_inclusive (f g : File) (value : String)
    (read : File → Option String)
    (hf : fileTypeOf f = "image") (hfs : f.size = 2097152)
    (hg : fileTypeOf g = "image") (hgs : g.size = 2097153) :
    (handleFileChange (some f) value read).readStarted = true ∧
    (handleFileChange (some f) value read).alerts = [] ∧
    (handleFileChange (some g) value read).alerts = [sizeAlertMsg] ∧
    (handleFileChange (some g) value read).readStarted = false := by
  rw [handleFileChange_ok f value read hf (by omega),
      handleFileChange_tooLarge g value read hg (by omega)]
  exact ⟨rfl, rfl, rfl, rfl⟩

theorem size_limit_is_inclusive_check :
    (fileTypeOf edgeA = "image" ∧ edgeA.size = 2097152 ∧
     fileTypeOf edgeB = "image" ∧ edgeB.size = 2097153) ∧
    ((handleFileChange (some edgeA) prevVal reader0).readStarted = true ∧
     (handleFileChange (some edgeA) prevVal reader0).alerts = [] ∧
     (handleFileChange (some edgeB) prevVal reader0).alerts = [sizeAlertMsg] ∧
     (handleFileChange (some edgeB) prevVal reader0).readStarted = false) :=
  ⟨⟨by decide, by decide, by decide, by decide⟩,
   size_limit_is_inclusive edgeA edgeB prevVal reader0
     (by decide) (by decide) (by decide) (by decide)⟩

/-- C10: on either validation failure the input value is NOT cleared:
the early return precedes the reset statement, so the rejected
selection leaves the stored value unchanged (and no read starts). -/
theorem rejected_file_value_retained (file : File) (value : String)
    (read : File → Option String)
    (h : fileTypeOf file ≠ "image" ∨ 2097152 < file.size) :
    (handleFileChange (some file) value read).value = value ∧
    (handleFileChange (some file) value read).readStarted = false := by
  by_cases himg : fileTypeOf file = "image"
  · rcases h with h | h
    · exact absurd himg h
    · rw [handleFileChange_tooLarge file value read himg h]
      exact ⟨rfl, rfl⟩
  · rw [handleFileChange_nonimage file value read himg]
    exact ⟨rfl, rfl⟩

theorem rejected_file_value_retained_check :
    (fileTypeOf txtFile ≠ "image" ∨ 2097152 < txtFile.size) ∧
    ((handleFileChange (some txtFile) prevVal readerOk).value = prevVal ∧
     (handleFileChange (some txtFile) prevVal readerOk).readStarted = false) :=
  ⟨Or.inl (by decide),
   rejected_file_value_retained txtFile prevVal readerOk (Or.inl (by decide))⟩

end ImageUpload
